import Mathlib

/-!
# Verification of the response/error normalization layer

Shallow embedding of the response-envelope builders and the middleware
pipeline of the FastAPI application (`app/core/builders.py`,
`app/core/responses.py`, `app/core/exceptions.py`,
`app/middleware/error_handler.py`, `app/middleware/request_logging.py`,
`main.py`), together with theorems settling the frozen claims about it.

Conventions of the embedding:
* Python `int` is `Int`; Python floor division `//` is `Int.fdiv`.
* JSON-serializable values are the inductive `JVal`; a JSON object /
  Python `dict` is an insertion-ordered association list
  `List (String × JVal)` with Python's `d[k] = v` semantics (`dictSet`:
  replace the value in place if the key exists, else append).
* Python truthiness (`if error_code:`, `x or default`) is modelled
  explicitly wherever the source relies on it.
-/

set_option maxHeartbeats 1000000

/-- A JSON value, the payload type of response bodies. -/
inductive JVal where
  | s : String → JVal
  | i : Int → JVal
  | b : Bool → JVal
  | null : JVal
  | arr : List JVal → JVal
  | obj : List (String × JVal) → JVal
deriving Repr

/-- A JSON object / Python dict: insertion-ordered key/value list. -/
abbrev JDict := List (String × JVal)

/-- Python dict membership test `k in d`. -/
def dictHas (d : JDict) (k : String) : Bool :=
  d.any (fun p => p.1 == k)

/-- Python dict read `d.get(k)`: first (hence only) binding of `k`. -/
def dictLookup (d : JDict) (k : String) : Option JVal :=
  (d.find? (fun p => p.1 == k)).map (fun p => p.2)

/-- Python dict write `d[k] = v`: overwrite in place, keeping the key's
position, when `k` is already bound; append `(k, v)` otherwise. -/
def dictSet : JDict → String → JVal → JDict
  | [], k, v => [(k, v)]
  | p :: rest, k, v => if p.1 == k then (k, v) :: rest else p :: dictSet rest k v

/-- Python `d.update(extra)`: `dictSet` each binding of `extra` in order. -/
def dictUpdate (d : JDict) (extra : JDict) : JDict :=
  extra.foldl (fun acc p => dictSet acc p.1 p.2) d

/-- Python truthiness of an optional string (`if error_code:`,
`custom_message or default`): `None` and `""` are falsy. -/
def strTruthy : Option String → Bool
  | none => false
  | some s => s != ""

/-- Python `a or default` on an optional string. -/
def strOrDefault (a : Option String) (dflt : String) : String :=
  match a with
  | none => dflt
  | some s => if s == "" then dflt else s

/-- Python truthiness of a `JVal` (`if resource_id:`). -/
def JVal.truthy : JVal → Bool
  | .null => false
  | .b v => v
  | .i v => v != 0
  | .s v => v != ""
  | .arr vs => !vs.isEmpty
  | .obj fs => !fs.isEmpty

/-- An HTTP response as produced by `JSONResponse(content=..., status_code=...)`:
a status code, a JSON-object body, and (initially empty) extra headers. -/
structure Response where
  status_code : Nat
  body : JDict
  headers : List (String × String)
deriving Repr

namespace ResponseBuilder

/-- `ResponseBuilder._build_response` (builders.py:46-69): base envelope with
`success` and `message` always present; `data` added only when not `None`;
`error_code` and `metadata` added only when truthy. -/
def buildResponse (success : Bool) (message : String) (data : Option JVal)
    (error_code : Option String) (metadata : Option JDict) : JDict :=
  [("success", JVal.b success), ("message", JVal.s message)]
    ++ (match data with
        | some d => [("data", d)]
        | none => [])
    ++ (match error_code with
        | some c => if c == "" then [] else [("error_code", JVal.s c)]
        | none => [])
    ++ (match metadata with
        | some m => if m.isEmpty then [] else [("metadata", JVal.obj m)]
        | none => [])

/-- `ResponseBuilder.success` (builders.py:71-96). -/
def success (data : Option JVal) (message : String) (status_code : Nat)
    (metadata : Option JDict) : Response :=
  { status_code := status_code
    body := buildResponse true message data none metadata
    headers := [] }

/-- `ResponseBuilder.created` (builders.py:98-116): delegates to `success`
with status 201. -/
def created (data : JVal) (message : String) : Response :=
  success (some data) message 201 none

/-- `ResponseBuilder.error` (builders.py:127-154): base error envelope,
then `response_data.update(extra_data)` when `extra_data` is nonempty. -/
def error (message : String) (error_code : Option String) (status_code : Nat)
    (extra_data : JDict) : Response :=
  let response_data := buildResponse false message none error_code none
  { status_code := status_code
    body := if extra_data.isEmpty then response_data
            else dictUpdate response_data extra_data
    headers := [] }

end ResponseBuilder

/-- The pagination metadata dict built by
`PaginationBuilder._calculate_pagination_info` (builders.py:160-182). -/
structure PaginationInfo where
  page : Int
  page_size : Int
  total_pages : Int
  has_next : Bool
  has_prev : Bool
  total : Int
deriving Repr, DecidableEq

namespace PaginationBuilder

/-- `PaginationBuilder._calculate_pagination_info` (builders.py:160-182):
`page = (skip // limit) + 1 if limit else 1`,
`total_pages = (total + limit - 1) // limit if limit else 0`,
`has_next = page < total_pages`, `has_prev = page > 1`. -/
def calculatePaginationInfo (total skip limit : Int) : PaginationInfo :=
  let page := if limit ≠ 0 then skip.fdiv limit + 1 else 1
  let total_pages := if limit ≠ 0 then (total + limit - 1).fdiv limit else 0
  { page := page
    page_size := limit
    total_pages := total_pages
    has_next := decide (page < total_pages)
    has_prev := decide (page > 1)
    total := total }

end PaginationBuilder

/-- The pagination fields computed inline by `paginated_response`
(responses.py:76-99) and carried by the `PaginatedResponse` model. -/
structure PaginatedFields where
  total : Int
  page : Int
  page_size : Int
  total_pages : Int
  has_next : Bool
  has_prev : Bool
deriving Repr, DecidableEq

/-- `paginated_response` (responses.py:76-99), restricted to the pagination
arithmetic: `total_pages = (total + limit - 1) // limit if limit else 0`,
`page = skip // limit + 1 if limit else 1`, `has_next = page < total_pages`,
`has_prev = page > 1`, `page_size = limit`. -/
def paginatedResponseFields (total skip limit : Int) : PaginatedFields :=
  let total_pages := if limit ≠ 0 then (total + limit - 1).fdiv limit else 0
  let page := if limit ≠ 0 then skip.fdiv limit + 1 else 1
  { total := total
    page := page
    page_size := limit
    total_pages := total_pages
    has_next := decide (page < total_pages)
    has_prev := decide (page > 1) }

namespace ExceptionBuilder

/-- The error-code constants bound in the `ExceptionBuilder` class body
(builders.py:256-263). -/
def NOT_FOUND : String := "NOT_FOUND"

def VALIDATION_ERROR : String := "VALIDATION_ERROR"

def BAD_REQUEST : String := "BAD_REQUEST"

def UNAUTHORIZED : String := "UNAUTHORIZED"

def FORBIDDEN : String := "FORBIDDEN"

def CONFLICT : String := "CONFLICT"

def INTERNAL_ERROR : String := "INTERNAL_ERROR"

def ROUTE_NOT_FOUND : String := "ROUTE_NOT_FOUND"

/-- The complete set of attribute names bound in the `ExceptionBuilder`
class body (builders.py:252-440): eight error-code constants and eight
static methods.  Python attribute access `ExceptionBuilder.x` raises
`AttributeError` for any name not in this list (the class has no base
besides `object` and no metaclass tricks). -/
def attrNames : List String :=
  ["NOT_FOUND", "VALIDATION_ERROR", "BAD_REQUEST", "UNAUTHORIZED",
   "FORBIDDEN", "CONFLICT", "INTERNAL_ERROR", "ROUTE_NOT_FOUND",
   "not_found", "validation_error", "bad_request", "conflict",
   "route_not_found", "internal_error", "unauthorized", "forbidden"]

/-- `ExceptionBuilder.not_found` (builders.py:265-294).  Message choice uses
Python truthiness of `custom_message` and `resource_id`; the extra fields
`resource` and `resource_id` are merged into the envelope (a `None`
`resource_id` serializes as JSON `null`). -/
def not_found (resource : String) (resource_id : Option JVal)
    (custom_message : Option String) : Response :=
  let message :=
    if strTruthy custom_message then custom_message.getD ""
    else if (resource_id.getD JVal.null).truthy then
      resource ++ " with id '" ++
        (match resource_id with
         | some (JVal.s v) => v
         | some (JVal.i v) => toString v
         | some (JVal.b v) => if v then "True" else "False"
         | _ => "") ++ "' not found"
    else resource ++ " not found"
  ResponseBuilder.error message (some NOT_FOUND) 404
    [("resource", JVal.s resource), ("resource_id", resource_id.getD JVal.null)]

/-- `ExceptionBuilder.validation_error` (builders.py:296-315). -/
def validation_error (errors : List JVal) (message : String) : Response :=
  ResponseBuilder.error message (some VALIDATION_ERROR) 422
    [("errors", JVal.arr errors)]

/-- `ExceptionBuilder.bad_request` (builders.py:317-338). -/
def bad_request (message : String) (error_code : Option String)
    (extra_data : JDict) : Response :=
  ResponseBuilder.error message (some (strOrDefault error_code BAD_REQUEST))
    400 extra_data

/-- `ExceptionBuilder.conflict` (builders.py:340-361). -/
def conflict (message : String) (error_code : Option String)
    (extra_data : JDict) : Response :=
  ResponseBuilder.error message (some (strOrDefault error_code CONFLICT))
    409 extra_data

/-- `ExceptionBuilder.route_not_found` (builders.py:363-380): 404 envelope
with `error_code=ROUTE_NOT_FOUND` and the request `path` and `method`
merged as extra fields. -/
def route_not_found (path : String) (method : String) : Response :=
  ResponseBuilder.error ("Route '" ++ method ++ " " ++ path ++ "' not found")
    (some ROUTE_NOT_FOUND) 404
    [("path", JVal.s path), ("method", JVal.s method)]

/-- `ExceptionBuilder.internal_error` (builders.py:382-400): defaults are
`message="Internal server error"` and `error_code=INTERNAL_ERROR`
(via `error_code or ExceptionBuilder.INTERNAL_ERROR`). -/
def internal_error (message : String) (error_code : Option String) : Response :=
  ResponseBuilder.error message (some (strOrDefault error_code INTERNAL_ERROR))
    500 []

/-- `ExceptionBuilder.unauthorized` (builders.py:402-420). -/
def unauthorized (message : String) (error_code : Option String) : Response :=
  ResponseBuilder.error message (some (strOrDefault error_code UNAUTHORIZED))
    401 []

/-- `ExceptionBuilder.forbidden` (builders.py:422-440). -/
def forbidden (message : String) (error_code : Option String) : Response :=
  ResponseBuilder.error message (some (strOrDefault error_code FORBIDDEN))
    403 []

end ExceptionBuilder

/-- The data carried by a `BaseAPIException` (exceptions.py:5-17):
HTTP status code, human message (`detail`), optional machine-readable
`error_code`, and the open `extra_data` keyword map. -/
structure APIExcData where
  status_code : Nat
  detail : String
  error_code : Option String
  extra_data : JDict
deriving Repr

/-- `ProductNotFoundException` (exceptions.py:88-94): a `NotFoundException`
(status 404) with a fixed message template, `error_code="PRODUCT_NOT_FOUND"`
and `product_id` in `extra_data`. -/
def ProductNotFoundException (product_id : Int) : APIExcData :=
  { status_code := 404
    detail := "Product with id " ++ toString product_id ++ " not found"
    error_code := some "PRODUCT_NOT_FOUND"
    extra_data := [("product_id", JVal.i product_id)] }

/-- The runtime classes of exceptions distinguished by the `isinstance`
cascade in `ErrorHandlerMiddleware.handle_exception` (error_handler.py:30-46),
plus the `AttributeError` the handler itself can raise. -/
inductive Exc where
  | api : APIExcData → Exc
  | validation : List JVal → Exc
  | http : Nat → String → Exc
  | unknown : String → Exc
  | attributeError : String → Exc
deriving Repr

/-- Python `str(exc)` as used in the middleware log lines.  For
(subclasses of) `StarletteHTTPException` this is `"{status_code}: {detail}"`;
for other exceptions we carry the message directly. -/
def Exc.str : Exc → String
  | .api e => toString e.status_code ++ ": " ++ e.detail
  | .validation errs => toString errs.length ++ " validation errors"
  | .http sc d => toString sc ++ ": " ++ d
  | .unknown m => m
  | .attributeError m => m

/-- A structured log line: `logger.info` / `logger.warning` / `logger.error`. -/
inductive Log where
  | info : String → Log
  | warning : String → Log
  | error : String → Log
deriving Repr, DecidableEq

/-- The request data the two middlewares read: `request.method`,
`request.url.path`, and `str(request.url)`. -/
structure Req where
  method : String
  path : String
  url : String
deriving Repr

/-- What a middleware layer's `call_next` produces: either a response
returned normally or an exception propagating up the stack. -/
inductive Outcome where
  | ok : Response → Outcome
  | raised : Exc → Outcome
deriving Repr

namespace ErrorHandlerMiddleware

/-- `ErrorHandlerMiddleware._handle_not_found` (error_handler.py:48-54):
log a warning and build the `route_not_found` envelope from the request's
path and method. -/
def handleNotFound (req : Req) : List Log × Response :=
  ([Log.warning ("Route not found: " ++ req.method ++ " " ++ req.path)],
   ExceptionBuilder.route_not_found req.path req.method)

/-- `ErrorHandlerMiddleware._handle_api_exception` (error_handler.py:56-74).
After the warning log, the code executes
`response = ExceptionBuilder.error(message=..., error_code=..., status_code=...)`.
The name `"error"` is not among `ExceptionBuilder.attrNames` (the class body
defines no attribute of that name — `error` lives on `ResponseBuilder`), so
Python's attribute lookup on that line raises `AttributeError`, which
propagates out of the middleware; no envelope is built. -/
def handleApiException (req : Req) (exc : APIExcData) : List Log × Outcome :=
  ([Log.warning ("API Exception: " ++ exc.detail ++ " - " ++ req.url)],
   Outcome.raised (Exc.attributeError
     "type object 'ExceptionBuilder' has no attribute 'error'"))

/-- `ErrorHandlerMiddleware._handle_validation_error` (error_handler.py:76-81):
delegates to `ExceptionBuilder.validation_error` with the default message.
The log line interpolates `exc.errors()`; its Python repr is abstracted
here by the number of issues. -/
def handleValidationError (req : Req) (errors : List JVal) : List Log × Outcome :=
  ([Log.warning ("Validation Error: [" ++ toString errors.length ++
     " issues] - " ++ req.url)],
   Outcome.ok (ExceptionBuilder.validation_error errors "Validation error"))

/-- `ErrorHandlerMiddleware._handle_http_exception` (error_handler.py:83-100).
A 404 is rewrapped via `ExceptionBuilder.not_found("Resource",
custom_message=str(exc.detail) or "Resource not found")`.  Any other status
executes `ExceptionBuilder.error(...)`, which — as in `handleApiException` —
raises `AttributeError` because `ExceptionBuilder` has no `error` attribute. -/
def handleHttpException (req : Req) (sc : Nat) (detail : String) :
    List Log × Outcome :=
  ([Log.warning ("HTTP Exception: " ++ detail ++ " - " ++ req.url)],
   if sc == 404 then
     Outcome.ok (ExceptionBuilder.not_found "Resource" none
       (some (if detail == "" then "Resource not found" else detail)))
   else
     Outcome.raised (Exc.attributeError
       "type object 'ExceptionBuilder' has no attribute 'error'"))

/-- `ErrorHandlerMiddleware._handle_unknown_exception`
(error_handler.py:102-107): `logger.error` with the exception's full text
(`exc_info=True` adds the stack trace server-side), then the generic
`ExceptionBuilder.internal_error()` with all defaults. -/
def handleUnknownException (req : Req) (excText : String) : List Log × Outcome :=
  ([Log.error ("Unhandled Exception: " ++ excText ++ " - " ++ req.url)],
   Outcome.ok (ExceptionBuilder.internal_error "Internal server error" none))

/-- `ErrorHandlerMiddleware.handle_exception` (error_handler.py:30-46): the
`isinstance` cascade — `BaseAPIException` first, then
`RequestValidationError`, then `StarletteHTTPException`, then the catch-all.
An `AttributeError` is none of the first three, so it would fall to the
catch-all branch with `str(exc)` as its text. -/
def handleException (req : Req) (exc : Exc) : List Log × Outcome :=
  match exc with
  | .api e => handleApiException req e
  | .validation errs => handleValidationError req errs
  | .http sc d => handleHttpException req sc d
  | .unknown m => handleUnknownException req m
  | .attributeError m => handleUnknownException req m

/-- `ErrorHandlerMiddleware.dispatch` (error_handler.py:18-28): call the
next layer; on a normal return replace a 404 response by the
`route_not_found` envelope, pass every other response through unchanged;
on a raised exception delegate to `handle_exception`. -/
def dispatch (req : Req) (callNext : List Log × Outcome) : List Log × Outcome :=
  match callNext with
  | (ls, .ok resp) =>
      if resp.status_code == 404 then
        let r := handleNotFound req
        (ls ++ r.1, Outcome.ok r.2)
      else (ls, .ok resp)
  | (ls, .raised exc) =>
      let r := handleException req exc
      (ls ++ r.1, r.2)

end ErrorHandlerMiddleware

/-- The "Request started" log line of request_logging.py:27-30. -/
def requestStartedLine (req : Req) (rid : String) : String :=
  "Request started: " ++ req.method ++ " " ++ req.path ++ " [ID: " ++ rid ++ "]"

/-- The "Request completed" log line of request_logging.py:40-45. -/
def requestCompletedLine (req : Req) (rid : String) (status : Nat)
    (dur : String) : String :=
  "Request completed: " ++ req.method ++ " " ++ req.path ++ " [ID: " ++ rid ++
    "] Status: " ++ toString status ++ " Duration: " ++ dur ++ "s"

/-- The "Request failed" log line of request_logging.py:58-63. -/
def requestFailedLine (req : Req) (rid : String) (err : String)
    (dur : String) : String :=
  "Request failed: " ++ req.method ++ " " ++ req.path ++ " [ID: " ++ rid ++
    "] Error: " ++ err ++ " Duration: " ++ dur ++ "s"

/-- starlette `MutableHeaders.__setitem__`: replace the header in place if
present, else append. -/
def headerSet : List (String × String) → String → String → List (String × String)
  | [], k, v => [(k, v)]
  | p :: rest, k, v => if p.1 == k then (k, v) :: rest else p :: headerSet rest k v

/-- Header read: first binding of the name. -/
def headerLookup (hs : List (String × String)) (k : String) : Option String :=
  (hs.find? (fun p => p.1 == k)).map (fun p => p.2)

namespace RequestLoggingMiddleware

/-- `RequestLoggingMiddleware.dispatch` (request_logging.py:18-64).
`rid` is the fresh `uuid.uuid4()` correlation identifier and `dur` the
elapsed time reported by the clock; both come from the environment.
On a normal return the response gets the `X-Request-ID` and
`X-Process-Time` headers and a "Request completed" line is logged; on a
raised exception a "Request failed" line is logged and the exception is
re-raised — no response exists, so no headers are stamped. -/
def dispatch (rid dur : String) (req : Req) (callNext : List Log × Outcome) :
    List Log × Outcome :=
  let startLog := Log.info (requestStartedLine req rid)
  match callNext with
  | (ls, .ok resp) =>
      (startLog :: ls ++
        [Log.info (requestCompletedLine req rid resp.status_code dur)],
       Outcome.ok { resp with
         headers := headerSet (headerSet resp.headers "X-Request-ID" rid)
           "X-Process-Time" dur })
  | (ls, .raised e) =>
      (startLog :: ls ++ [Log.error (requestFailedLine req rid e.str dur)],
       Outcome.raised e)

end RequestLoggingMiddleware

/-- The middleware classes `main.py` registers on the application. -/
inductive MwTag where
  | cors
  | requestLogging
  | errorHandler
deriving Repr, DecidableEq

/-- starlette `Starlette.add_middleware`: `user_middleware.insert(0, m)` —
the most recently added middleware sits at the head of the list. -/
def addMiddleware (user_middleware : List MwTag) (m : MwTag) : List MwTag :=
  m :: user_middleware

/-- The `app.add_middleware` calls of main.py:66-76, in program order:
CORS first, then `RequestLoggingMiddleware`, then `ErrorHandlerMiddleware`. -/
def mainUserMiddleware : List MwTag :=
  addMiddleware (addMiddleware (addMiddleware [] MwTag.cors)
    MwTag.requestLogging) MwTag.errorHandler

/-- One middleware layer acting on the result of its `call_next`.
`CORSMiddleware` is modelled as the identity: for requests without an
`Origin` header it forwards the request and response untouched, and none
of the claims concern CORS headers. -/
def MwTag.dispatch : MwTag → String → String → Req →
    (List Log × Outcome) → (List Log × Outcome)
  | .cors, _, _, _, res => res
  | .requestLogging, rid, dur, req, res =>
      RequestLoggingMiddleware.dispatch rid dur req res
  | .errorHandler, _, _, req, res => ErrorHandlerMiddleware.dispatch req res

/-- starlette `build_middleware_stack` wraps the app in `reversed(stack)`
order, so the head of `user_middleware` is the outermost layer: it
post-processes what all the layers after it produced. -/
def runStack (stack : List MwTag) (rid dur : String) (req : Req)
    (downstream : List Log × Outcome) : List Log × Outcome :=
  match stack with
  | [] => downstream
  | m :: rest => m.dispatch rid dur req (runStack rest rid dur req downstream)

/-- The composed pipeline of `main.py`: the registered user middleware
applied to the routing layer's outcome `downstream`. -/
def runApp (rid dur : String) (req : Req) (downstream : List Log × Outcome) :
    List Log × Outcome :=
  runStack mainUserMiddleware rid dur req downstream

/-- The outermost layer of a middleware stack. -/
def outermost (stack : List MwTag) : Option MwTag :=
  stack.head?

/-! ## Helper lemmas -/

/-- Rational floor of an integer quotient is Euclidean division (for a
positive divisor). -/
theorem intFloorDivRat (a b : ℤ) (hb : 0 < b) : ⌊(a : ℚ) / (b : ℚ)⌋ = a / b := by
  have hbq : (0 : ℚ) < (b : ℚ) := by exact_mod_cast hb
  have hmod := Int.ediv_add_emod a b
  have hr0 : 0 ≤ a % b := Int.emod_nonneg a (by omega)
  have hrb : a % b < b := Int.emod_lt_of_pos a hb
  rw [Int.floor_eq_iff]
  constructor
  · rw [le_div_iff₀ hbq]
    have : (a / b) * b ≤ a := by nlinarith [hmod]
    exact_mod_cast this
  · rw [div_lt_iff₀ hbq]
    have : a < (a / b + 1) * b := by nlinarith [hmod]
    exact_mod_cast this

/-- Rational ceiling of an integer quotient is the `(a + b - 1) / b`
rounding-up idiom (for a positive divisor). -/
theorem intCeilDivRat (a b : ℤ) (hb : 0 < b) :
    ⌈(a : ℚ) / (b : ℚ)⌉ = (a + b - 1) / b := by
  have hbq : (0 : ℚ) < (b : ℚ) := by exact_mod_cast hb
  have hmod := Int.ediv_add_emod (a + b - 1) b
  have hr0 : 0 ≤ (a + b - 1) % b := Int.emod_nonneg _ (by omega)
  have hrb : (a + b - 1) % b < b := Int.emod_lt_of_pos _ hb
  rw [Int.ceil_eq_iff]
  constructor
  · rw [lt_div_iff₀ hbq]
    have : ((a + b - 1) / b - 1) * b < a := by nlinarith [hmod]
    exact_mod_cast this
  · rw [div_le_iff₀ hbq]
    have : a ≤ ((a + b - 1) / b) * b := by nlinarith [hmod]
    exact_mod_cast this

/-! ## Claims -/

/-- C4: For all integers `total ≥ 0`, `skip ≥ 0`, `limit ≥ 1`, the
pagination metadata of `PaginationBuilder._calculate_pagination_info`
satisfies `page = ⌊skip/limit⌋ + 1`, `total_pages = ⌈total/limit⌉`,
`has_next ↔ page < total_pages`, `has_prev ↔ page > 1`,
`page_size = limit`, and `total` is echoed unchanged. -/
theorem c4_pagination_formulas (total skip limit : Int) (ht : 0 ≤ total)
    (hs : 0 ≤ skip) (hl : 1 ≤ limit) :
    (PaginationBuilder.calculatePaginationInfo total skip limit).page =
      ⌊(skip : ℚ) / (limit : ℚ)⌋ + 1 ∧
    (PaginationBuilder.calculatePaginationInfo total skip limit).total_pages =
      ⌈(total : ℚ) / (limit : ℚ)⌉ ∧
    ((PaginationBuilder.calculatePaginationInfo total skip limit).has_next = true ↔
      (PaginationBuilder.calculatePaginationInfo total skip limit).page <
        (PaginationBuilder.calculatePaginationInfo total skip limit).total_pages) ∧
    ((PaginationBuilder.calculatePaginationInfo total skip limit).has_prev = true ↔
      1 < (PaginationBuilder.calculatePaginationInfo total skip limit).page) ∧
    (PaginationBuilder.calculatePaginationInfo total skip limit).page_size = limit ∧
    (PaginationBuilder.calculatePaginationInfo total skip limit).total = total := by
  have hl0 : (0 : ℤ) < limit := by omega
  have hne : limit ≠ 0 := by omega
  have hfd : ∀ a : ℤ, a.fdiv limit = a / limit :=
    fun a => Int.fdiv_eq_ediv a (le_of_lt hl0)
  refine ⟨?_, ?_, ?_, ?_, ?_, ?_⟩ <;>
    simp [PaginationBuilder.calculatePaginationInfo, hne, hfd,
      intFloorDivRat _ _ hl0, intCeilDivRat _ _ hl0]

/-- Witness for C4 at `total = 25`, `skip = 20`, `limit = 10`
(the spec's own example: page 3 of 3, `has_next = false`,
`has_prev = true`). -/
theorem c4_pagination_formulas_witness :
    ((0 : Int) ≤ 25 ∧ (0 : Int) ≤ 20 ∧ (1 : Int) ≤ 10) ∧
    ((PaginationBuilder.calculatePaginationInfo 25 20 10).page =
      ⌊((20 : Int) : ℚ) / ((10 : Int) : ℚ)⌋ + 1 ∧
    (PaginationBuilder.calculatePaginationInfo 25 20 10).total_pages =
      ⌈((25 : Int) : ℚ) / ((10 : Int) : ℚ)⌉ ∧
    ((PaginationBuilder.calculatePaginationInfo 25 20 10).has_next = true ↔
      (PaginationBuilder.calculatePaginationInfo 25 20 10).page <
        (PaginationBuilder.calculatePaginationInfo 25 20 10).total_pages) ∧
    ((PaginationBuilder.calculatePaginationInfo 25 20 10).has_prev = true ↔
      1 < (PaginationBuilder.calculatePaginationInfo 25 20 10).page) ∧
    (PaginationBuilder.calculatePaginationInfo 25 20 10).page_size = 10 ∧
    (PaginationBuilder.calculatePaginationInfo 25 20 10).total = 25) :=
  ⟨⟨by decide, by decide, by decide⟩,
   c4_pagination_formulas 25 20 10 (by decide) (by decide) (by decide)⟩

/-- C5: For every `total ≥ 0` and `skip ≥ 0`, the pagination-info
calculation with `limit = 0` divides by nothing (the `if limit` guard
short-circuits both divisions) and returns `page = 1`, `total_pages = 0`,
`has_next = false`, `has_prev = false`. -/
theorem c5_limit_zero_safe (total skip : Int) (ht : 0 ≤ total)
    (hs : 0 ≤ skip) :
    (PaginationBuilder.calculatePaginationInfo total skip 0).page = 1 ∧
    (PaginationBuilder.calculatePaginationInfo total skip 0).total_pages = 0 ∧
    (PaginationBuilder.calculatePaginationInfo total skip 0).has_next = false ∧
    (PaginationBuilder.calculatePaginationInfo total skip 0).has_prev = false := by
  refine ⟨?_, ?_, ?_, ?_⟩ <;> simp [PaginationBuilder.calculatePaginationInfo]

/-- Witness for C5 at `total = 7`, `skip = 3`. -/
theorem c5_limit_zero_safe_witness :
    ((0 : Int) ≤ 7 ∧ (0 : Int) ≤ 3) ∧
    ((PaginationBuilder.calculatePaginationInfo 7 3 0).page = 1 ∧
    (PaginationBuilder.calculatePaginationInfo 7 3 0).total_pages = 0 ∧
    (PaginationBuilder.calculatePaginationInfo 7 3 0).has_next = false ∧
    (PaginationBuilder.calculatePaginationInfo 7 3 0).has_prev = false) :=
  ⟨⟨by decide, by decide⟩, c5_limit_zero_safe 7 3 (by decide) (by decide)⟩

/-- C10: The two pagination implementations are equivalent: for all
integers `total`, `skip`, `limit` (including `limit = 0`), the `page`,
`page_size`, `total_pages`, `has_next` and `has_prev` computed by
`paginated_response` (responses.py) equal those computed by
`PaginationBuilder._calculate_pagination_info` (builders.py). -/
theorem c10_pagination_equivalent (total skip limit : Int) :
    (paginatedResponseFields total skip limit).page =
      (PaginationBuilder.calculatePaginationInfo total skip limit).page ∧
    (paginatedResponseFields total skip limit).page_size =
      (PaginationBuilder.calculatePaginationInfo total skip limit).page_size ∧
    (paginatedResponseFields total skip limit).total_pages =
      (PaginationBuilder.calculatePaginationInfo total skip limit).total_pages ∧
    (paginatedResponseFields total skip limit).has_next =
      (PaginationBuilder.calculatePaginationInfo total skip limit).has_next ∧
    (paginatedResponseFields total skip limit).has_prev =
      (PaginationBuilder.calculatePaginationInfo total skip limit).has_prev :=
  ⟨rfl, rfl, rfl, rfl, rfl⟩

/-- Writing a key not equal to `k` does not change what `k` looks up to. -/
theorem dictLookup_set_ne (d : JDict) (kk k : String) (v : JVal) (h : kk ≠ k) :
    dictLookup (dictSet d kk v) k = dictLookup d k := by
  have hkk : (kk == k) = false := beq_eq_false_iff_ne.mpr h
  induction d with
  | nil => simp [dictSet, dictLookup, List.find?, hkk]
  | cons p rest ih =>
      by_cases hp : p.1 == kk
      · have hpk : (p.1 == k) = false := by
          rw [eq_of_beq hp]; exact hkk
        simp [dictSet, hp, dictLookup, List.find?, hkk, hpk]
      · simp only [dictSet, hp, if_false]
        by_cases hpk : p.1 == k
        · simp [dictLookup, List.find?, hpk]
        · simp [dictLookup, List.find?, hpk] at ih ⊢
          exact ih

/-- A `dict.update` whose keys all differ from `k` does not change what `k`
looks up to. -/
theorem dictLookup_update_of_ne (extra : JDict) (d : JDict) (k : String)
    (h : ∀ p ∈ extra, p.1 ≠ k) :
    dictLookup (dictUpdate d extra) k = dictLookup d k := by
  induction extra generalizing d with
  | nil => rfl
  | cons p rest ih =>
      have hstep : dictUpdate d (p :: rest) =
          dictUpdate (dictSet d p.1 p.2) rest := rfl
      rw [hstep, ih _ (fun q hq => h q (List.mem_cons_of_mem p hq)),
        dictLookup_set_ne _ _ _ _ (h p (List.mem_cons_self p rest))]

/-- C8: `ResponseBuilder.success` called with absent (`None`) data
produces an envelope with no `data` key at all, and the `metadata` key is
likewise omitted entirely when metadata is absent. -/
theorem c8_success_omits_keys (message : String) (status_code : Nat) :
    dictLookup (ResponseBuilder.success none message status_code none).body
      "data" = none ∧
    dictLookup (ResponseBuilder.success none message status_code none).body
      "metadata" = none :=
  ⟨rfl, rfl⟩

/-- C9 counterexample: The claim "for … any extra key-value fields the
error envelope never contains a `data` key" is false as stated: the open
`**extra_data` merge of `ResponseBuilder.error` accepts the key `data`
itself, and `dict.update` then installs it in the envelope. -/
theorem c9_counterexample :
    dictLookup (ResponseBuilder.error "Bad request" none 400
      [("data", JVal.i 1)]).body "data" = some (JVal.i 1) := rfl

/-- C9 amended: For every invocation of `ResponseBuilder.error` whose
extra fields do not themselves use the key `data`, the resulting error
envelope contains no `data` key. -/
theorem c9_amended (message : String) (error_code : Option String)
    (status_code : Nat) (extra : JDict) (h : ∀ p ∈ extra, p.1 ≠ "data") :
    dictLookup (ResponseBuilder.error message error_code status_code extra).body
      "data" = none := by
  have base : dictLookup
      (ResponseBuilder.buildResponse false message none error_code none)
      "data" = none := by
    rcases error_code with _ | c
    · rfl
    · by_cases hc : c == ""
      · simp [ResponseBuilder.buildResponse, hc, dictLookup, List.find?]
      · simp [ResponseBuilder.buildResponse, hc, dictLookup, List.find?]
  by_cases he : extra.isEmpty
  · simpa [ResponseBuilder.error, he] using base
  · simpa [ResponseBuilder.error, he, dictLookup_update_of_ne extra _ _ h]
      using base

/-- Witness for the amended C9 at the `not_found`-style extra fields
`resource`/`resource_id`. -/
theorem c9_amended_witness :
    (∀ p ∈ [("resource", JVal.s "Product"), ("resource_id", JVal.i 42)],
      (p : String × JVal).1 ≠ "data") ∧
    dictLookup (ResponseBuilder.error "Product not found" (some "NOT_FOUND")
      404 [("resource", JVal.s "Product"), ("resource_id", JVal.i 42)]).body
      "data" = none :=
  ⟨by decide,
   c9_amended "Product not found" (some "NOT_FOUND") 404
     [("resource", JVal.s "Product"), ("resource_id", JVal.i 42)] (by decide)⟩

/-! ## Concrete requests and responses used by closed theorems -/

/-- A concrete request hitting a product endpoint. -/
def reqProducts : Req :=
  { method := "GET", path := "/api/v1/products/42",
    url := "http://testserver/api/v1/products/42" }

/-- A concrete request for a path with no registered route. -/
def reqMissing : Req :=
  { method := "GET", path := "/nonexistent",
    url := "http://testserver/nonexistent" }

/-- A concrete plain 200 success response from a handler. -/
def resp200 : Response :=
  { status_code := 200,
    body := [("success", JVal.b true), ("message", JVal.s "Success")],
    headers := [] }

/-- The body-less 404 a router emits when no route matches. -/
def resp404 : Response :=
  { status_code := 404, body := [], headers := [] }

/-- Setting a header makes it readable with that value. -/
theorem headerLookup_set_self (hs : List (String × String)) (k v : String) :
    headerLookup (headerSet hs k v) k = some v := by
  induction hs with
  | nil => simp [headerSet, headerLookup, List.find?]
  | cons p rest ih =>
      by_cases hp : p.1 == k
      · simp [headerSet, hp, headerLookup, List.find?]
      · simp [headerSet, hp, headerLookup, List.find?] at ih ⊢
        exact ih

/-- Setting one header leaves the others unchanged. -/
theorem headerLookup_set_ne (hs : List (String × String)) (kk k v : String)
    (h : kk ≠ k) :
    headerLookup (headerSet hs kk v) k = headerLookup hs k := by
  have hkk : (kk == k) = false := beq_eq_false_iff_ne.mpr h
  induction hs with
  | nil => simp [headerSet, headerLookup, List.find?, hkk]
  | cons p rest ih =>
      by_cases hp : p.1 == kk
      · have hpk : (p.1 == k) = false := by
          rw [eq_of_beq hp]; exact hkk
        simp [headerSet, hp, headerLookup, List.find?, hkk, hpk]
      · simp only [headerSet, hp, if_false]
        by_cases hpk : p.1 == k
        · simp [headerLookup, List.find?, hpk]
        · simp [headerLookup, List.find?, hpk] at ih ⊢
          exact ih

/-- C1: a raised `BaseAPIException` (here `ProductNotFoundException(42)`)
is NOT turned into an error envelope: `_handle_api_exception` calls
`ExceptionBuilder.error`, but `"error"` is not an attribute of the
`ExceptionBuilder` class, so after the warning log the handler itself
raises `AttributeError` and no envelope is produced — the code contradicts
the claim (and its own docstring/return type), a slip for
`ResponseBuilder.error`. -/
theorem c1_api_exception_crashes :
    "error" ∉ ExceptionBuilder.attrNames ∧
    ErrorHandlerMiddleware.handleException reqProducts
      (Exc.api (ProductNotFoundException 42)) =
      ([Log.warning
          "API Exception: Product with id 42 not found - http://testserver/api/v1/products/42"],
       Outcome.raised (Exc.attributeError
         "type object 'ExceptionBuilder' has no attribute 'error'")) :=
  ⟨by decide, rfl⟩

/-- C2 counterexample: the Request-Logging Middleware is NOT the outermost
layer of the composed pipeline.  `main.py` registers CORS, then
`RequestLoggingMiddleware`, then `ErrorHandlerMiddleware`, and starlette's
`add_middleware` prepends, so the head (outermost) of the user middleware
stack is the Error-Handling Middleware. -/
theorem c2_counterexample :
    ¬ (outermost mainUserMiddleware = some MwTag.requestLogging) := by decide

/-- C2 amended: in the composed pipeline the Error-Handling Middleware is
the outermost custom layer: it wraps the Request-Logging Middleware (CORS
sits between logging and routing), so for every request the error-handling
layer observes the outcome after the logging layer produced or propagated
it. -/
theorem c2_amended :
    mainUserMiddleware = [MwTag.errorHandler, MwTag.requestLogging, MwTag.cors] ∧
    ∀ (rid dur : String) (req : Req) (downstream : List Log × Outcome),
      runApp rid dur req downstream =
        ErrorHandlerMiddleware.dispatch req
          (RequestLoggingMiddleware.dispatch rid dur req downstream) :=
  ⟨rfl, fun _ _ _ _ => rfl⟩

/-- C3 counterexample: not every response carries the `X-Request-ID`
header.  When the downstream raises an unknown fault, the logging layer
re-raises without a response object, and the error envelope is then built
by the (outer) Error-Handling Middleware with no headers — even though the
"Request started" line for that request logged a correlation id. -/
theorem c3_counterexample :
    (runApp "rid-1" "0.002" reqProducts
      ([], Outcome.raised (Exc.unknown "boom"))).2 =
      Outcome.ok (ExceptionBuilder.internal_error "Internal server error" none) ∧
    headerLookup (ExceptionBuilder.internal_error "Internal server error"
      none).headers "X-Request-ID" = none ∧
    Log.info (requestStartedLine reqProducts "rid-1") ∈
      (runApp "rid-1" "0.002" reqProducts
        ([], Outcome.raised (Exc.unknown "boom"))).1 :=
  ⟨rfl, rfl, List.mem_cons_self _ _⟩

/-- C3 amended: every response that reaches the client from a normal
downstream return with status ≠ 404 carries the `X-Request-ID` header, and
its value is the correlation identifier in that request's "Request
started" and "Request completed" log lines.  (Error envelopes built by the
Error-Handling Middleware — raised exceptions and intercepted 404s — carry
no such header, per the counterexample.) -/
theorem c3_amended (rid dur : String) (req : Req) (ls : List Log)
    (resp : Response) (h : resp.status_code ≠ 404) :
    ∃ resp2,
      (runApp rid dur req (ls, Outcome.ok resp)).2 = Outcome.ok resp2 ∧
      headerLookup resp2.headers "X-Request-ID" = some rid ∧
      Log.info (requestStartedLine req rid) ∈
        (runApp rid dur req (ls, Outcome.ok resp)).1 ∧
      Log.info (requestCompletedLine req rid resp.status_code dur) ∈
        (runApp rid dur req (ls, Outcome.ok resp)).1 := by
  have hb : (resp.status_code == 404) = false := by
    simpa using h
  refine ⟨{ resp with headers := headerSet (headerSet resp.headers
    "X-Request-ID" rid) "X-Process-Time" dur }, ?_, ?_, ?_, ?_⟩
  · simp [runApp, runStack, MwTag.dispatch, RequestLoggingMiddleware.dispatch,
      ErrorHandlerMiddleware.dispatch, hb]
  · rw [headerLookup_set_ne _ _ _ _ (by decide)]
    exact headerLookup_set_self _ _ _
  · simp [runApp, runStack, MwTag.dispatch, RequestLoggingMiddleware.dispatch,
      ErrorHandlerMiddleware.dispatch, hb]
  · simp [runApp, runStack, MwTag.dispatch, RequestLoggingMiddleware.dispatch,
      ErrorHandlerMiddleware.dispatch, hb]

/-- Witness for the amended C3 at a concrete 200 response. -/
theorem c3_amended_witness :
    (resp200.status_code ≠ 404) ∧
    (∃ resp2,
      (runApp "rid-1" "0.002" reqProducts ([], Outcome.ok resp200)).2 =
        Outcome.ok resp2 ∧
      headerLookup resp2.headers "X-Request-ID" = some "rid-1" ∧
      Log.info (requestStartedLine reqProducts "rid-1") ∈
        (runApp "rid-1" "0.002" reqProducts ([], Outcome.ok resp200)).1 ∧
      Log.info (requestCompletedLine reqProducts "rid-1" resp200.status_code
        "0.002") ∈
        (runApp "rid-1" "0.002" reqProducts ([], Outcome.ok resp200)).1) :=
  ⟨by decide, c3_amended "rid-1" "0.002" reqProducts [] resp200 (by decide)⟩

/-- C6: on a normal downstream return the Error-Handling Middleware passes
any non-404 response through unchanged, and replaces a body-less 404 by the
`route_not_found` envelope: status 404, `error_code = "ROUTE_NOT_FOUND"`,
with the request's `path` and `method` in the body. -/
theorem c6_normal_return (req : Req) (ls : List Log) (resp : Response) :
    (resp.status_code ≠ 404 →
      ErrorHandlerMiddleware.dispatch req (ls, Outcome.ok resp) =
        (ls, Outcome.ok resp)) ∧
    (resp.status_code = 404 → resp.body = [] →
      ErrorHandlerMiddleware.dispatch req (ls, Outcome.ok resp) =
        (ls ++ [Log.warning ("Route not found: " ++ req.method ++ " " ++ req.path)],
         Outcome.ok (ExceptionBuilder.route_not_found req.path req.method)) ∧
      (ExceptionBuilder.route_not_found req.path req.method).status_code = 404 ∧
      dictLookup (ExceptionBuilder.route_not_found req.path req.method).body
        "error_code" = some (JVal.s "ROUTE_NOT_FOUND") ∧
      dictLookup (ExceptionBuilder.route_not_found req.path req.method).body
        "path" = some (JVal.s req.path) ∧
      dictLookup (ExceptionBuilder.route_not_found req.path req.method).body
        "method" = some (JVal.s req.method) ∧
      dictLookup (ExceptionBuilder.route_not_found req.path req.method).body
        "success" = some (JVal.b false)) := by
  constructor
  · intro h
    have hb : (resp.status_code == 404) = false := by simpa using h
    simp [ErrorHandlerMiddleware.dispatch, hb]
  · intro h _
    have hb : (resp.status_code == 404) = true := by simpa using h
    refine ⟨?_, rfl, rfl, rfl, rfl, rfl⟩
    simp [ErrorHandlerMiddleware.dispatch, hb,
      ErrorHandlerMiddleware.handleNotFound]

/-- Witness for C6: the concrete 200 response passes through unchanged and
the concrete empty-body 404 is replaced by the `route_not_found` envelope. -/
theorem c6_normal_return_witness :
    (resp200.status_code ≠ 404 ∧
      ErrorHandlerMiddleware.dispatch reqProducts ([], Outcome.ok resp200) =
        ([], Outcome.ok resp200)) ∧
    (resp404.status_code = 404 ∧ resp404.body = [] ∧
      (ErrorHandlerMiddleware.dispatch reqMissing ([], Outcome.ok resp404) =
        ([] ++ [Log.warning ("Route not found: " ++ reqMissing.method ++ " " ++
          reqMissing.path)],
         Outcome.ok (ExceptionBuilder.route_not_found reqMissing.path
           reqMissing.method)) ∧
      (ExceptionBuilder.route_not_found reqMissing.path
        reqMissing.method).status_code = 404 ∧
      dictLookup (ExceptionBuilder.route_not_found reqMissing.path
        reqMissing.method).body "error_code" = some (JVal.s "ROUTE_NOT_FOUND") ∧
      dictLookup (ExceptionBuilder.route_not_found reqMissing.path
        reqMissing.method).body "path" = some (JVal.s reqMissing.path) ∧
      dictLookup (ExceptionBuilder.route_not_found reqMissing.path
        reqMissing.method).body "method" = some (JVal.s reqMissing.method) ∧
      dictLookup (ExceptionBuilder.route_not_found reqMissing.path
        reqMissing.method).body "success" = some (JVal.b false))) :=
  ⟨⟨by decide, (c6_normal_return reqProducts [] resp200).1 (by decide)⟩,
   rfl, rfl, (c6_normal_return reqMissing [] resp404).2 rfl rfl⟩

/-- C7: for every unknown raised fault the client receives exactly the
generic internal-error envelope — status 500, `error_code =
"INTERNAL_ERROR"`, message "Internal server error" — identical for any two
unknown faults regardless of their own exception text, while the
server-side log records the fault's full text at error severity. -/
theorem c7_unknown_fault_opaque (rid dur : String) (req : Req)
    (m1 m2 : String) :
    (runApp rid dur req ([], Outcome.raised (Exc.unknown m1))).2 =
      Outcome.ok (ExceptionBuilder.internal_error "Internal server error" none) ∧
    (runApp rid dur req ([], Outcome.raised (Exc.unknown m1))).2 =
      (runApp rid dur req ([], Outcome.raised (Exc.unknown m2))).2 ∧
    (ExceptionBuilder.internal_error "Internal server error"
      none).status_code = 500 ∧
    dictLookup (ExceptionBuilder.internal_error "Internal server error"
      none).body "error_code" = some (JVal.s "INTERNAL_ERROR") ∧
    dictLookup (ExceptionBuilder.internal_error "Internal server error"
      none).body "message" = some (JVal.s "Internal server error") ∧
    Log.error ("Unhandled Exception: " ++ m1 ++ " - " ++ req.url) ∈
      (runApp rid dur req ([], Outcome.raised (Exc.unknown m1))).1 := by
  refine ⟨rfl, rfl, rfl, rfl, rfl, ?_⟩
  simp [runApp, runStack, MwTag.dispatch, RequestLoggingMiddleware.dispatch,
    ErrorHandlerMiddleware.dispatch, ErrorHandlerMiddleware.handleException,
    ErrorHandlerMiddleware.handleUnknownException]
